import Mathlib

set_option maxHeartbeats 1000000

/-!
Verification development for the DankY dictionary-aggregation core.

The Python sources are shallowly embedded as executable Lean definitions:

* `TreeTagger`            — dictionaries/TreeTagger.py
* `Word`                  — src/Word.py (lemmatize pipeline)
* `German_dict`           — src/dictionaries/dicts/german_dict.py
* `English_dict`          — src/dictionaries/dicts/english_dict.py
* `DictionariesManager`   — src/dictionaries/dictionaries_manager.py
* `SendToAnki`            — src/bot/send_to_anki.py (field composition and
  mandatory-field validation; the HTTP transport is out of scope)

Python exceptions are modelled with `Except String`; Python `None` with
`Option`; the external services (Duden, dictionaryapi.dev, TreeTagger engine,
translation back-ends, epitran) are modelled as abstract data/functions that
the embedded code consumes exactly as the source does.

Python string operations are re-implemented here over `List Char` by
structural recursion (rather than reusing the positional `String` library
functions), so that every definition evaluates by kernel reduction.
-/

/-! ## Python string primitives -/

/-- Tokenizer step for Python `str.split()` with no argument: split on runs of
whitespace, dropping empty tokens. `acc` holds the current token reversed. -/
def wsTokensAux : List Char → List Char → List (List Char)
  | [], acc => if acc.isEmpty then [] else [acc.reverse]
  | c :: rest, acc =>
    if c.isWhitespace then
      if acc.isEmpty then wsTokensAux rest [] else acc.reverse :: wsTokensAux rest []
    else wsTokensAux rest (c :: acc)

/-- Python `s.split()` (no separator argument). -/
def pySplitTokens (s : String) : List String :=
  (wsTokensAux s.data []).map String.mk

/-- Python `s.strip()`: remove leading and trailing whitespace. -/
def pyStrip (s : String) : String :=
  String.mk (((s.data.dropWhile Char.isWhitespace).reverse.dropWhile
    Char.isWhitespace).reverse)

/-- Python `words[-1] if words else ""` over `s.split()`. -/
def lastTokenD (s : String) : String :=
  (pySplitTokens s).getLastD ""

/-- The punctuation characters of `strip('.,;:')` in `German_dict.get_plural`. -/
def punctChars : List Char := ['.', ',', ';', ':']

/-- Python `s.strip('.,;:')`: remove the given characters from both ends. -/
def pyStripPunct (s : String) : String :=
  let l := s.data.dropWhile (fun c => punctChars.contains c)
  String.mk ((l.reverse.dropWhile (fun c => punctChars.contains c)).reverse)

/-- When `sep` is a prefix of `s`, return the remainder of `s`. -/
def dropPrefixCh? : List Char → List Char → Option (List Char)
  | [], s => some s
  | _ :: _, [] => none
  | a :: as, b :: bs => if a = b then dropPrefixCh? as bs else none

/-- Python `s.split(sep)` over character lists, with explicit fuel so that the
recursion is structural. `acc` holds the current piece reversed. Matches
non-overlapping occurrences of `sep` left to right. -/
def splitOnChAux (sep : List Char) : Nat → List Char → List Char → List (List Char)
  | _, [], acc => [acc.reverse]
  | 0, s, acc => [acc.reverse ++ s]
  | fuel + 1, c :: rest, acc =>
    match dropPrefixCh? sep (c :: rest) with
    | some rem => acc.reverse :: splitOnChAux sep fuel rem []
    | none => splitOnChAux sep fuel rest (c :: acc)

/-- Python `s.split(sep)` for a non-empty separator string. -/
def pySplitOnSub (sep s : String) : List String :=
  (splitOnChAux sep.data s.data.length s.data []).map String.mk

/-- Python `s.split(sep)[-1]`: the part of `s` after the last occurrence of
`sep` (the whole of `s` when `sep` does not occur). -/
def afterLastSub (sep s : String) : String :=
  (pySplitOnSub sep s).getLastD ""

/-- Python `sub in s` for a non-empty substring `sub`. -/
def pyInStr (sub s : String) : Bool :=
  2 ≤ (pySplitOnSub sub s).length

/-- Python `c in s` for a single character. -/
def pyContainsChar (c : Char) (s : String) : Bool :=
  s.data.contains c

/-- Python `s.startswith(p)`. -/
def pyStartsWith (p s : String) : Bool :=
  (dropPrefixCh? p.data s.data).isSome

/-- Python `s.lower()` (ASCII case mapping suffices for this code base). -/
def pyLower (s : String) : String :=
  String.mk (s.data.map Char.toLower)

/-- Python `s[n:]` (slice from character index `n`). -/
def pyDrop (n : Nat) (s : String) : String :=
  String.mk (s.data.drop n)

/-- Python `sep.join(parts)`. -/
def pyJoin (sep : String) (parts : List String) : String :=
  String.mk (List.intercalate sep.data (parts.map String.data))

/-- Python `str.capitalize()`: first character upper-cased, the rest
lower-cased. -/
def pyCapitalize (s : String) : String :=
  match s.data with
  | [] => ""
  | c :: cs => String.mk (c.toUpper :: cs.map Char.toLower)

/-- Python blankness test `not s.strip()`. -/
def pyBlank (s : String) : Bool :=
  pyStrip s = ""

/-- Per-character step of `German_dict._clean_text`: non-breaking space
becomes a space, the zero-width space is removed, newline, carriage return
and tab become spaces. -/
def cleanChar (c : Char) : Option Char :=
  if c = Char.ofNat 0xA0 then some ' '
  else if c = Char.ofNat 0x200B then none
  else if c = '\n' then some ' '
  else if c = '\r' then some ' '
  else if c = '\t' then some ' '
  else some c

/-- `German_dict._clean_text` on a string: character replacements followed by
Python `' '.join(text.split())` (collapse internal whitespace, trim ends). -/
def cleanText (s : String) : String :=
  pyJoin " " (pySplitTokens (String.mk (s.data.filterMap cleanChar)))

/-- Python truthiness of an optional string: `None` and `""` are falsy. -/
def pyFalsyOpt : Option String → Bool
  | none => true
  | some s => s = ""

/-! ## Shared value shapes -/

/-- A Python value that is either a string or a list of strings; used where
the code branches on `isinstance(x, list)` (definitions and examples). -/
inductive StrOrList where
  | str (s : String)
  | list (l : List String)
deriving DecidableEq, Repr

/-- Python `x or []` followed by iteration: a list yields its elements, a
string yields its characters as one-character strings (an empty string yields
`[]`, matching `"" or []`). -/
def pyOrEmptyItems : StrOrList → List String
  | .str s => s.data.map (fun c => String.mk [c])
  | .list l => l

/-! ## TreeTagger wrapper (dictionaries/TreeTagger.py) -/

/-- One tagged unit produced by the external TreeTagger engine. `lem` models
the `lemma` attribute of a tag (`lemma` is a Lean keyword). -/
structure TTag where
  pos : String
  lem : String
deriving DecidableEq, Repr

/-- `TreeTagger.get_lemma`: space-join of the per-unit lemmas, skipping
`None` entries (`" ".join([t.lemma for t in parsed_tags if t is not None])`). -/
def treeTaggerLemma (parsed_tags : List (Option TTag)) : String :=
  pyJoin " " ((parsed_tags.filterMap id).map TTag.lem)

/-! ## Duden data and German_dict (src/dictionaries/dicts/german_dict.py) -/

/-- One element of `duden_result.meaning_overview`: a string or a nested list
of strings (the code also branches on `isinstance(d, list)` there). -/
inductive MeaningElem where
  | str (s : String)
  | lst (l : List String)
deriving DecidableEq, Repr

/-- The portion of a `duden.get` result object that the code reads. A `None`
`meaning_overview` or `grammar_overview` is modelled by `[]` / `""` (they are
falsy and take the same branch). `phonetic` may be `None`. -/
structure DudenEntry where
  meaning_overview : List MeaningElem := []
  grammar_overview : String := ""
  synonyms : List String := []
  phonetic : Option String := none
  article : String := ""
deriving DecidableEq, Repr

/-- `German_dict.get_definition`. `duden_result` is `None` on a failed fetch.
Case 3 (all elements strings of length at most 2) joins and cleans once;
otherwise one level of nesting is flattened and each definition cleaned. -/
def germanGetDefinition (duden_result : Option DudenEntry) : List String :=
  match duden_result with
  | none => []
  | some d =>
    let definitions := d.meaning_overview
    if definitions = [] then []
    else if definitions.all (fun e =>
        match e with
        | .str s => decide (s.data.length ≤ 2)
        | .lst _ => false) then
      [cleanText (pyJoin "" (definitions.map (fun e =>
        match e with
        | .str s => s
        | .lst _ => "")))]
    else
      let flat_defs := definitions.flatMap (fun e =>
        match e with
        | .str s => [s]
        | .lst l => l)
      flat_defs.map cleanText

/-- `German_dict.get_examples`: currently returns the empty string. -/
def germanGetExamples : StrOrList := .str ""

/-- The candidate produced by the `"Plural:"` heuristic of
`German_dict.get_plural`: `grammar_overview.split("Plural:")[-1].strip()`,
then `plural_words[-1] if plural_words else ""` over `.split()`, then
`.strip('.,;:')`. -/
def pluralMarkerToken (grammar_overview : String) : String :=
  pyStripPunct (lastTokenD (pyStrip (afterLastSub "Plural:" grammar_overview)))

/-- The candidate produced by the comma heuristic of
`German_dict.get_plural`: `grammar_overview.split(',')[-1].strip()`, then
`after_comma.split()[-1] if after_comma else ""`, then `.strip('.,;:')`. -/
def pluralCommaToken (grammar_overview : String) : String :=
  let after_comma := pyStrip (afterLastSub "," grammar_overview)
  pyStripPunct (if after_comma = "" then "" else lastTokenD after_comma)

/-- `German_dict.get_plural`: the `"Plural:"` heuristic fires when the
literal marker occurs and its candidate token is non-empty; the code then
falls through (also when the marker was present but its candidate empty) to
the comma heuristic, and finally to `""`. The body is wrapped in
`try/except` returning `""`, which the total model needs no branch for. -/
def germanGetPlural (duden_result : Option DudenEntry) : String :=
  match duden_result with
  | none => ""
  | some d =>
    let grammar_overview := d.grammar_overview
    if grammar_overview = "" then ""
    else
      let commaStep : String :=
        if pyContainsChar ',' grammar_overview then
          if pluralCommaToken grammar_overview ≠ "" then
            pluralCommaToken grammar_overview
          else ""
        else ""
      if pyInStr "Plural:" grammar_overview then
        if pluralMarkerToken grammar_overview ≠ "" then
          pluralMarkerToken grammar_overview
        else commaStep
      else commaStep

/-! ## English data and English_dict (src/dictionaries/dicts/english_dict.py) -/

/-- One element of `meanings[i]["definitions"]` as read by the code. `ex`
models the `"example"` key (`example` is a Lean keyword). -/
structure EDef where
  definition : String := ""
  ex : Option String := none
  synonyms : List String := []
deriving DecidableEq, Repr

/-- One element of `data["meanings"]` as read by the code. -/
structure EMeaning where
  partOfSpeech : String := ""
  definitions : List EDef := []
  synonyms : List String := []
deriving DecidableEq, Repr

/-- The portion of the dictionaryapi.dev first entry that the code reads
(`_fetch_data` returns `{}` on failure, modelled by the default values). -/
structure EnglishData where
  sourceUrls : List String := []
  meanings : List EMeaning := []
  phonetic : String := ""
deriving DecidableEq, Repr

/-- `English_dict.get_definition`: every definition of every meaning. -/
def englishGetDefinition (data : EnglishData) : List String :=
  data.meanings.flatMap (fun m => m.definitions.map (fun d => d.definition))

/-- `English_dict.get_examples`: the truthy examples of every definition. -/
def englishGetExamples (data : EnglishData) : List String :=
  data.meanings.flatMap (fun m => m.definitions.filterMap (fun d =>
    match d.ex with
    | some e => if e ≠ "" then some e else none
    | none => none))

/-- `English_dict.get_synonyms`: meaning-level and definition-level synonyms,
unioned. The Python `set` is modelled as a deduplicated list. -/
def englishGetSynonyms (data : EnglishData) : List String :=
  (data.meanings.flatMap (fun m =>
    m.synonyms ++ m.definitions.flatMap (fun d => d.synonyms))).dedup

/-- `English_dict.get_url`: the first source URL, or empty. -/
def englishGetUrl (data : EnglishData) : String :=
  data.sourceUrls.headD ""

/-! ## The Source Dictionary surface consumed by DictionariesManager -/

/-- The getter surface of `self.dictionary` as `DictionariesManager` sees it.
Each getter may raise (`Except.error`). `get_plural?` is `none` when the
class defines no `get_plural` method (the `hasattr` probe fails); `get_IPA`
may return `None` (`Option`). -/
structure SourceDict where
  get_lemma : Except String String
  get_POS : Except String String := .ok ""
  get_url : Except String String := .ok ""
  get_article : Except String String := .ok ""
  get_plural? : Option (Except String String) := none
  get_definition : Except String StrOrList := .ok (.list [])
  get_examples : Except String StrOrList := .ok (.list [])
  get_synonyms : Except String (List String) := .ok []
  get_IPA : Except String (Option String) := .ok (some "")

/-- `German_dict` as a `SourceDict`: lemma and POS come from the tagger, the
rest from the (possibly failed, hence optional) Duden fetch. -/
def mkGermanSourceDict (lem pos : String) (duden_result : Option DudenEntry) :
    SourceDict where
  get_lemma := .ok lem
  get_POS := .ok pos
  get_url := .ok ("https://www.duden.de/rechtschreibung/" ++ lem)
  get_article := .ok (match duden_result with
    | some d => d.article
    | none => "")
  get_plural? := some (.ok (germanGetPlural duden_result))
  get_definition := .ok (.list (germanGetDefinition duden_result))
  get_examples := .ok germanGetExamples
  get_synonyms := .ok (match duden_result with
    | some d => d.synonyms
    | none => [])
  get_IPA := .ok (match duden_result with
    | some d => d.phonetic
    | none => some "")

/-- `English_dict` as a `SourceDict`: the class defines no `get_plural`
method, so `get_plural?` is `none`; `get_article` always returns `""`. -/
def mkEnglishSourceDict (lem pos : String) (data : EnglishData) : SourceDict where
  get_lemma := .ok lem
  get_POS := .ok pos
  get_url := .ok (englishGetUrl data)
  get_article := .ok ""
  get_plural? := none
  get_definition := .ok (.list (englishGetDefinition data))
  get_examples := .ok (.list (englishGetExamples data))
  get_synonyms := .ok (englishGetSynonyms data)
  get_IPA := .ok (some data.phonetic)

/-! ## DictionariesManager (src/dictionaries/dictionaries_manager.py) -/

/-- The state of a constructed `DictionariesManager`: the word, language and
configuration, the wrapped source dictionary, the optional epitran engine and
the four translation back-ends. Each back-end function covers both the
constructor call `translator_class(source=…, target=…)` and `.translate(lemma)`
(both run inside the same `try`). -/
structure DictionariesManager where
  word : String
  lang : String
  max_items : Nat := 15
  translation_language : Option String := none
  dict : SourceDict
  epitranAvailable : Bool := false
  epitran : String → Except String String := fun _ => .error "epitran unavailable"
  google : String → Except String String := fun _ => .error "network"
  mymemory : String → Except String String := fun _ => .error "network"
  linguee : String → Except String String := fun _ => .error "network"
  pons : String → Except String String := fun _ => .error "network"

/-- The re-raise message of `DictionariesManager.get_lemma`. -/
def lemmaErrMsg (m : DictionariesManager) (e : String) : String :=
  "Error getting lemma for '" ++ m.word ++ "' in " ++ m.lang ++ ": " ++ e

/-- The re-raise message of `DictionariesManager.get_definition`. -/
def definitionErrMsg (m : DictionariesManager) (e : String) : String :=
  "Error getting definitions for '" ++ m.word ++ "' in " ++ m.lang ++ ": " ++ e

/-- `DictionariesManager.get_lemma`: a fault is re-raised with word and
language context. -/
def DictionariesManager.get_lemma (m : DictionariesManager) : Except String String :=
  match m.dict.get_lemma with
  | .ok v => .ok v
  | .error e => .error (lemmaErrMsg m e)

/-- `DictionariesManager.get_POS`: a fault becomes `""`. -/
def DictionariesManager.get_POS (m : DictionariesManager) : Except String String :=
  match m.dict.get_POS with
  | .ok v => .ok v
  | .error _ => .ok ""

/-- `DictionariesManager.get_url`: a fault becomes `""`. -/
def DictionariesManager.get_url (m : DictionariesManager) : Except String String :=
  match m.dict.get_url with
  | .ok v => .ok v
  | .error _ => .ok ""

/-- `DictionariesManager.get_article`: a fault becomes `""`. -/
def DictionariesManager.get_article (m : DictionariesManager) : Except String String :=
  match m.dict.get_article with
  | .ok v => .ok v
  | .error _ => .ok ""

/-- `DictionariesManager.get_plural`: the `hasattr` probe yields `""` when the
dictionary type has no `get_plural` method; a fault becomes `""`. -/
def DictionariesManager.get_plural (m : DictionariesManager) : Except String String :=
  match m.dict.get_plural? with
  | some (.ok v) => .ok v
  | some (.error _) => .ok ""
  | none => .ok ""

/-- `DictionariesManager.get_definition`: a list is truncated to `max_items`,
a non-list passes through, a fault is re-raised with word and language
context. -/
def DictionariesManager.get_definition (m : DictionariesManager) :
    Except String StrOrList :=
  match m.dict.get_definition with
  | .ok (.list l) => .ok (.list (l.take m.max_items))
  | .ok (.str s) => .ok (.str s)
  | .error e => .error (definitionErrMsg m e)

/-- `DictionariesManager.get_examples`: a list is truncated to `max_items`,
a non-list passes through, a fault becomes `[]`. -/
def DictionariesManager.get_examples (m : DictionariesManager) :
    Except String StrOrList :=
  match m.dict.get_examples with
  | .ok (.list l) => .ok (.list (l.take m.max_items))
  | .ok (.str s) => .ok (.str s)
  | .error _ => .ok (.list [])

/-- `DictionariesManager.get_synonyms`: a fault becomes `[]`. -/
def DictionariesManager.get_synonyms (m : DictionariesManager) :
    Except String (List String) :=
  match m.dict.get_synonyms with
  | .ok v => .ok v
  | .error _ => .ok []

/-- `DictionariesManager.get_IPA`: resolves the lemma through `get_lemma`
(outside any `try`, so its fault propagates), then reads the dictionary IPA
with blanks and faults degraded to `""`, then, when the IPA is still empty,
the language is German and epitran is available, tries the transliteration
fallback with blanks and faults degraded to `""`. -/
def DictionariesManager.get_IPA (m : DictionariesManager) : Except String String :=
  match m.get_lemma with
  | .error e => .error e
  | .ok lem =>
    let ipa : String :=
      match m.dict.get_IPA with
      | .ok none => ""
      | .ok (some s) => if pyStrip s = "" then "" else s
      | .error _ => ""
    let ipa : String :=
      if ipa = "" ∧ m.lang = "de" ∧ m.epitranAvailable then
        match m.epitran lem with
        | .ok t => if t = "" ∨ pyStrip t = "" then "" else t
        | .error _ => ""
      else ipa
    .ok (if ipa ≠ "" ∧ pyStrip ipa ≠ "" then ipa else "")

/-- The fixed ordered translator list of `get_translation`. -/
def translatorsOf (m : DictionariesManager) :
    List (String × (String → Except String String)) :=
  [("GoogleTranslator", m.google),
   ("MyMemoryTranslator", m.mymemory),
   ("LingueeTranslator", m.linguee),
   ("PonsTranslator", m.pons)]

/-- The fallback loop of `get_translation`. Returns the result together with
the names of the back-ends that were actually invoked, in order. A back-end
succeeds when it returns a non-empty, non-whitespace string; its result is
then capitalized and later back-ends are not invoked. -/
def tryTranslators (lem : String) :
    List (String × (String → Except String String)) → String × List String
  | [] => ("", [])
  | (name, tr) :: rest =>
    match tr lem with
    | .ok t =>
      if t ≠ "" ∧ pyStrip t ≠ "" then (pyCapitalize t, [name])
      else
        let r := tryTranslators lem rest
        (r.1, name :: r.2)
    | .error _ =>
      let r := tryTranslators lem rest
      (r.1, name :: r.2)

/-- `DictionariesManager.get_translation`: with no (truthy) translation
language the chain is skipped and `""` returned; otherwise the lemma is
resolved (its fault propagates) and the back-ends are tried in order. The
second component records which back-ends were invoked. -/
def DictionariesManager.get_translation (m : DictionariesManager) :
    Except String (String × List String) :=
  if pyFalsyOpt m.translation_language then .ok ("", [])
  else
    match m.get_lemma with
    | .error e => .error e
    | .ok lem => .ok (tryTranslators lem (translatorsOf m))

/-! ## SendToAnki field composition (src/bot/send_to_anki.py) -/

/-- The keys of the flat field mapping built by `_prepareFields`. The Python
dict uses string keys; the rendering is `url`, `lemma`, `IPA`, `POS`,
`article`, `plural`, `translated_lemma`, `synonyms`, and `def{i}` / `ex{i}`
for the numbered slots (`defN i` / `exN i` here; the rendering is injective,
so key equality in the dict coincides with equality of this type). -/
inductive FieldKey where
  | url
  | lemma_
  | ipa
  | pos
  | article
  | plural
  | translated_lemma
  | synonyms
  | defN (i : Nat)
  | exN (i : Nat)
deriving DecidableEq, Repr

/-- Lookup in the field mapping (Python `fields.get(k)`; the keys built by
`_prepareFields` are pairwise distinct, so first-match lookup agrees with the
dict). -/
def lookupK : List (FieldKey × String) → FieldKey → Option String
  | [], _ => none
  | (k, v) :: rest, k' => if k = k' then some v else lookupK rest k'

/-- The numbered-slot loop `for i, d in enumerate(items, start=i0):
fields[f"…{i}"] = d or ""` (for strings, `d or ""` is `d` itself when
non-empty and `""` when `d` is `""`, i.e. the identity). -/
def numberFrom (tag : Nat → FieldKey) : Nat → List String → List (FieldKey × String)
  | _, [] => []
  | i, d :: ds => (tag i, d) :: numberFrom tag (i + 1) ds

/-- Value of an `Except` that cannot raise in context, with a default used by
a surrounding `try`/`except`. -/
def okD {α : Type} (d : α) : Except String α → α
  | .ok v => v
  | .error _ => d

/-- `SendToAnki._prepareFields` on an already-constructed aggregator.
Faithful points: `get_url` and `get_lemma` are called unprotected (a
`get_lemma` fault propagates out); IPA, POS, article, plural, translation and
synonyms are individually guarded with empty defaults; POS, article and
plural are whitespace-stripped (`x.strip() if x.strip() else ""`); synonyms
are `", "`-joined; `get_definition` is called unprotected (its fault
propagates); definition and example items are placed in `def{i}` / `ex{i}`
slots for the first 15 items only — no trailing slots are added. -/
def prepareFields (m : DictionariesManager) :
    Except String (List (FieldKey × String)) := do
  let url ← m.get_url
  let lem ← m.get_lemma
  let ipa := okD "" m.get_IPA
  let pos := pyStrip (okD "" m.get_POS)
  let article := pyStrip (okD "" m.get_article)
  let plural := pyStrip (okD "" m.get_plural)
  let translation :=
    match m.get_translation with
    | .ok r => r.1
    | .error _ => ""
  let synonyms := okD [] m.get_synonyms
  let synStr := if synonyms = [] then "" else pyJoin ", " synonyms
  let baseFields : List (FieldKey × String) :=
    [(.url, url), (.lemma_, lem), (.ipa, ipa), (.pos, pos),
     (.article, article), (.plural, plural),
     (.translated_lemma, translation), (.synonyms, synStr)]
  let definitions ← m.get_definition
  let defItems := (pyOrEmptyItems definitions).take 15
  let examples ← m.get_examples
  let exItems := (pyOrEmptyItems examples).take 15
  pure (baseFields ++ numberFrom .defN 1 defItems ++ numberFrom .exN 1 exItems)

/-- `MissingMandatoryFieldError(missing_fields, word)`. -/
structure MissingMandatoryFieldError where
  missing_fields : List FieldKey
  word : String
deriving DecidableEq, Repr

/-- The per-field test of `addNotes`: missing, `None`, empty, or
whitespace-only (`not v or (isinstance(v, str) and not v.strip())`). -/
def fieldIsMissing (fields : List (FieldKey × String)) (k : FieldKey) : Bool :=
  match lookupK fields k with
  | none => true
  | some v => v = "" ∨ pyStrip v = ""

/-- The validation phase of `SendToAnki.addNotes`: first the
`mandatory_fields = ["def1"]` loop, then the separate lemma check. -/
def addNotesCheck (fields : List (FieldKey × String)) (word : String) :
    Except MissingMandatoryFieldError Unit :=
  let mandatory_fields : List FieldKey := [.defN 1]
  let missing_fields := mandatory_fields.filter (fun k => fieldIsMissing fields k)
  if missing_fields ≠ [] then .error ⟨missing_fields, word⟩
  else if fieldIsMissing fields .lemma_ then .error ⟨[.lemma_], word⟩
  else .ok ()

/-- `addNotes` up to (and excluding) the network submission: compose the
fields, then validate. The outer `Except String` is a propagated
`_prepareFields` fault, the inner one the structured validation error. -/
def addNotesValidated (m : DictionariesManager) :
    Except String (Except MissingMandatoryFieldError (List (FieldKey × String))) := do
  let fields ← prepareFields m
  match addNotesCheck fields m.word with
  | .ok _ => pure (.ok fields)
  | .error e => pure (.error e)

/-! ## Word (src/Word.py) -/

/-- `Word.__init__` normalization: `word.lower().strip()`. -/
def wordNormalize (w : String) : String :=
  pyStrip (pyLower w)

/-- The article list of `Word.lemmatize`. -/
def ARTICLES_LIST : List String := ["the", "a", "an", "to"]

/-- The leading-article removal loop of `Word.lemmatize`: the first article
in list order whose `art + " "` prefixes the word is cut off (with a further
strip), then the loop breaks. -/
def stripLeadingArticle (w : String) : String :=
  match ARTICLES_LIST.find? (fun art => pyStartsWith (art ++ " ") w) with
  | some art => pyStrip (pyDrop art.data.length w)
  | none => w

/-- `Word.lemmatize` on a freshly constructed `Word`. `simplemmaFn` stands
for `simplemma.lemmatize(·, 'en')` and `conn` for the network existence check
`_try_connection` (both external). The phrase check `" " in self.word` runs
after article removal and before both of them. -/
def wordLemmatize (simplemmaFn : String → String) (conn : Except String Unit)
    (checkExistence : Bool) (w0 : String) : Except String String :=
  let w1 := stripLeadingArticle (wordNormalize w0)
  if pyContainsChar ' ' w1 then .error "Only one word is allowed, not a phrase."
  else
    let w2 := simplemmaFn w1
    if checkExistence then
      match conn with
      | .ok _ => .ok w2
      | .error e => .error e
    else .ok w2

/-! ## Abstract fault shapes and concrete instances used in the claims -/

/-- A translation back-end attempt that does not succeed: it raises, or it
returns a falsy or whitespace-only string. -/
def failsOrBlank (tr : String → Except String String) (lem : String) : Prop :=
  (∃ e, tr lem = .error e) ∨ ∃ t, tr lem = .ok t ∧ (t = "" ∨ pyStrip t = "")

/-- A source dictionary whose every getter raises. -/
def failingSourceDict : SourceDict where
  get_lemma := .error "boom"
  get_POS := .error "boom"
  get_url := .error "boom"
  get_article := .error "boom"
  get_plural? := some (.error "boom")
  get_definition := .error "boom"
  get_examples := .error "boom"
  get_synonyms := .error "boom"
  get_IPA := .error "boom"

/-- An aggregator over the all-failing dictionary. -/
def mC1 : DictionariesManager :=
  { word := "haus", lang := "de", dict := failingSourceDict }

/-- A German aggregator whose lemma resolved to `""` and whose Duden fetch
failed: both mandatory fields end up missing. -/
def mC2 : DictionariesManager :=
  { word := "zzz", lang := "de", dict := mkGermanSourceDict "" "Noun" none }

/-- An aggregator with two definitions and one example. -/
def mC3 : DictionariesManager :=
  { word := "w3", lang := "en",
    dict := { get_lemma := .ok "w3",
              get_definition := .ok (.list ["d1", "d2"]),
              get_examples := .ok (.list ["e1"]) } }

/-- An aggregator whose first translator raises, second returns empty, third
returns `"haus"`: the spec's fallback-ordering scenario. -/
def mC4 : DictionariesManager :=
  { word := "haus", lang := "de", translation_language := some "it",
    dict := { get_lemma := .ok "haus" },
    google := fun _ => .error "rate limited",
    mymemory := fun _ => .ok "",
    linguee := fun _ => .ok "haus",
    pons := fun _ => .ok "unreached" }

/-- An aggregator whose source yields 30 definitions. -/
def mC6 : DictionariesManager :=
  { word := "many", lang := "en",
    dict := { get_lemma := .ok "many",
              get_definition := .ok (.list (List.replicate 30 "d")) } }

/-- An aggregator whose source dictionary faults on `get_lemma` (e.g. the
tagger crashed) but has perfectly good IPA data. -/
def mC7 : DictionariesManager :=
  { word := "haus", lang := "de",
    dict := { get_lemma := .error "tagger crashed", get_IPA := .ok (some "x") } }

/-- A German aggregator with blank source IPA and a working epitran engine. -/
def mC7w : DictionariesManager :=
  { word := "haus", lang := "de",
    dict := { get_lemma := .ok "Haus", get_IPA := .ok (some " ") },
    epitranAvailable := true,
    epitran := fun _ => .ok "haus-ipa" }

/-- The spec's pathological meaning overview `["H","a","u","s"]`. -/
def d8 : DudenEntry := { meaning_overview := [.str "H", .str "a", .str "u", .str "s"] }

/-- A grammar overview that ends in the literal `"Plural:"` marker with
nothing after it, and has a comma before it. -/
def d9 : DudenEntry := { grammar_overview := "die Frau, Plural:" }

/-- A grammar overview without the marker (comma heuristic case). -/
def d9a : DudenEntry := { grammar_overview := "das Haus; Genitiv: des Hauses, Häuser" }

/-- A grammar overview with the marker (marker heuristic case). -/
def d9b : DudenEntry :=
  { grammar_overview := "die Frau; Genitiv: der Frau, Plural: die Frauen" }

/-- An aggregator over the REST/English variant, which has no `get_plural`
capability. -/
def mC9 : DictionariesManager :=
  { word := "cat", lang := "en", dict := mkEnglishSourceDict "cat" "Noun" {} }

/-- A populated Duden entry used for the German-examples witness. -/
def d10 : DudenEntry :=
  { meaning_overview := [.str "Gebäude, das Menschen bewohnen"],
    grammar_overview := "das Haus; Genitiv: des Hauses, Plural: die Häuser",
    synonyms := ["Gebäude"], phonetic := some "haʊs", article := "das" }

/-- A German aggregator over the populated entry. -/
def mC10 : DictionariesManager :=
  { word := "haus", lang := "de", dict := mkGermanSourceDict "Haus" "Noun" (some d10) }

/-! ## Helper lemmas on the field mapping -/

/-- The part of the composed mapping holding the eight base fields. -/
def preparedBase (m : DictionariesManager) (lv : String) : List (FieldKey × String) :=
  [(.url, okD "" m.get_url), (.lemma_, lv), (.ipa, okD "" m.get_IPA),
   (.pos, pyStrip (okD "" m.get_POS)), (.article, pyStrip (okD "" m.get_article)),
   (.plural, pyStrip (okD "" m.get_plural)),
   (.translated_lemma, match m.get_translation with
     | .ok r => r.1
     | .error _ => ""),
   (.synonyms, if okD [] m.get_synonyms = [] then ""
     else pyJoin ", " (okD [] m.get_synonyms))]

/-- The composed mapping in explicit form. -/
def prepared (m : DictionariesManager) (lv : String) (dv ev : StrOrList) :
    List (FieldKey × String) :=
  preparedBase m lv ++ numberFrom .defN 1 ((pyOrEmptyItems dv).take 15)
    ++ numberFrom .exN 1 ((pyOrEmptyItems ev).take 15)

theorem get_url_isOk (m : DictionariesManager) : ∃ u, m.get_url = .ok u := by
  unfold DictionariesManager.get_url
  cases m.dict.get_url <;> exact ⟨_, rfl⟩

theorem prepareFields_run (m : DictionariesManager) (u lv : String)
    (dv ev : StrOrList) (hu : m.get_url = .ok u) (hl : m.get_lemma = .ok lv)
    (hd : m.get_definition = .ok dv) (he : m.get_examples = .ok ev) :
    prepareFields m = .ok (prepared m lv dv ev) := by
  simp only [prepareFields, prepared, preparedBase, hu, hl, hd, he, okD]
  rfl

theorem prepareFields_error_of_lemma (m : DictionariesManager) (e : String)
    (hl : m.get_lemma = .error e) : prepareFields m = .error e := by
  obtain ⟨u, hu⟩ := get_url_isOk m
  simp only [prepareFields, hu, hl]
  rfl

theorem prepareFields_error_of_definition (m : DictionariesManager)
    (lv : String) (e : String) (hl : m.get_lemma = .ok lv)
    (hd : m.get_definition = .error e) : prepareFields m = .error e := by
  obtain ⟨u, hu⟩ := get_url_isOk m
  simp only [prepareFields, hu, hl, hd]
  rfl

theorem prepareFields_error_of_examples (m : DictionariesManager)
    (lv : String) (dv : StrOrList) (e : String) (hl : m.get_lemma = .ok lv)
    (hd : m.get_definition = .ok dv) (he : m.get_examples = .error e) :
    prepareFields m = .error e := by
  obtain ⟨u, hu⟩ := get_url_isOk m
  simp only [prepareFields, hu, hl, hd, he]
  rfl

theorem prepareFields_ok_inv (m : DictionariesManager)
    (fl : List (FieldKey × String)) (h : prepareFields m = .ok fl) :
    ∃ lv dv ev, m.get_lemma = .ok lv ∧ m.get_definition = .ok dv ∧
      m.get_examples = .ok ev ∧ fl = prepared m lv dv ev := by
  obtain ⟨u, hu⟩ := get_url_isOk m
  cases hl : m.get_lemma with
  | error e => rw [prepareFields_error_of_lemma m e hl] at h; cases h
  | ok lv =>
    cases hd : m.get_definition with
    | error e => rw [prepareFields_error_of_definition m lv e hl hd] at h; cases h
    | ok dv =>
      cases he : m.get_examples with
      | error e => rw [prepareFields_error_of_examples m lv dv e hl hd he] at h; cases h
      | ok ev =>
        refine ⟨lv, dv, ev, rfl, rfl, rfl, ?_⟩
        rw [prepareFields_run m u lv dv ev hu hl hd he] at h
        exact (Except.ok.injEq _ _ ▸ h).symm

theorem lookupK_append_right_none {b : List (FieldKey × String)} {k : FieldKey}
    (hb : lookupK b k = none) (a : List (FieldKey × String)) :
    lookupK (a ++ b) k = lookupK a k := by
  induction a with
  | nil => simpa using hb
  | cons p rest ih =>
    by_cases h : p.1 = k
    · simp [lookupK, h]
    · simp [lookupK, h, ih]

theorem lookupK_numberFrom_ne (tag : Nat → FieldKey) (k : FieldKey)
    (hk : ∀ j, tag j ≠ k) (items : List String) :
    ∀ i, lookupK (numberFrom tag i items) k = none := by
  induction items with
  | nil => intro i; simp [numberFrom, lookupK]
  | cons d ds ih => intro i; simp [numberFrom, lookupK, hk i, ih]

theorem lookupK_numberFrom_tag (tag : Nat → FieldKey)
    (inj : ∀ x y, tag x = tag y → x = y) (items : List String) :
    ∀ i j, lookupK (numberFrom tag i items) (tag j) =
      if i ≤ j then items[j - i]? else none := by
  induction items with
  | nil => intro i j; simp [numberFrom, lookupK]
  | cons d ds ih =>
    intro i j
    by_cases h : tag i = tag j
    · have hij : i = j := inj _ _ h
      subst hij
      simp [numberFrom, lookupK]
    · have hij : i ≠ j := fun hc => h (hc ▸ rfl)
      simp only [numberFrom, lookupK, if_neg h, ih]
      by_cases hle : i ≤ j
      · have h1 : i + 1 ≤ j := by omega
        have h2 : j - i = (j - (i + 1)) + 1 := by omega
        simp [hle, h1, h2]
      · have h1 : ¬ i + 1 ≤ j := by omega
        simp [hle, h1]

theorem lookupK_append_left_none {a : List (FieldKey × String)} {k : FieldKey}
    (ha : lookupK a k = none) (b : List (FieldKey × String)) :
    lookupK (a ++ b) k = lookupK b k := by
  induction a with
  | nil => simp
  | cons p rest ih =>
    by_cases h : p.1 = k
    · simp only [lookupK, if_pos h] at ha
      cases ha
    · simp only [lookupK, if_neg h] at ha
      simp [lookupK, h, ih ha]

theorem lookupK_preparedBase_defN (m : DictionariesManager) (lv : String)
    (j : Nat) : lookupK (preparedBase m lv) (.defN j) = none := by
  simp [preparedBase, lookupK]

theorem lookupK_preparedBase_exN (m : DictionariesManager) (lv : String)
    (j : Nat) : lookupK (preparedBase m lv) (.exN j) = none := by
  simp [preparedBase, lookupK]

theorem lookupK_prepared_defN (m : DictionariesManager) (lv : String)
    (dv ev : StrOrList) (j : Nat) :
    lookupK (prepared m lv dv ev) (.defN j) =
      if 1 ≤ j then ((pyOrEmptyItems dv).take 15)[j - 1]? else none := by
  have hex : lookupK (numberFrom FieldKey.exN 1 ((pyOrEmptyItems ev).take 15))
      (FieldKey.defN j) = none :=
    lookupK_numberFrom_ne _ _ (fun i => by simp) _ 1
  unfold prepared
  rw [lookupK_append_right_none hex,
    lookupK_append_left_none (lookupK_preparedBase_defN m lv j),
    lookupK_numberFrom_tag FieldKey.defN (fun x y h => by injection h) _ 1 j]

theorem lookupK_prepared_exN (m : DictionariesManager) (lv : String)
    (dv ev : StrOrList) (j : Nat) :
    lookupK (prepared m lv dv ev) (.exN j) =
      if 1 ≤ j then ((pyOrEmptyItems ev).take 15)[j - 1]? else none := by
  have hdef : lookupK (numberFrom FieldKey.defN 1 ((pyOrEmptyItems dv).take 15))
      (FieldKey.exN j) = none :=
    lookupK_numberFrom_ne _ _ (fun i => by simp) _ 1
  unfold prepared
  rw [List.append_assoc,
    lookupK_append_left_none (lookupK_preparedBase_exN m lv j),
    lookupK_append_left_none hdef,
    lookupK_numberFrom_tag FieldKey.exN (fun x y h => by injection h) _ 1 j]

theorem lookupK_prepared_base (m : DictionariesManager) (lv : String)
    (dv ev : StrOrList) :
    lookupK (prepared m lv dv ev) .url = some (okD "" m.get_url) ∧
    lookupK (prepared m lv dv ev) .lemma_ = some lv ∧
    lookupK (prepared m lv dv ev) .ipa = some (okD "" m.get_IPA) ∧
    lookupK (prepared m lv dv ev) .pos = some (pyStrip (okD "" m.get_POS)) ∧
    lookupK (prepared m lv dv ev) .article = some (pyStrip (okD "" m.get_article)) ∧
    lookupK (prepared m lv dv ev) .plural = some (pyStrip (okD "" m.get_plural)) ∧
    lookupK (prepared m lv dv ev) .translated_lemma = some (match m.get_translation with
      | .ok r => r.1
      | .error _ => "") ∧
    lookupK (prepared m lv dv ev) .synonyms = some (if okD [] m.get_synonyms = [] then ""
      else pyJoin ", " (okD [] m.get_synonyms)) := by
  refine ⟨?_, ?_, ?_, ?_, ?_, ?_, ?_, ?_⟩ <;> simp [prepared, preparedBase, lookupK]

/-! ## Helper lemmas on the translator chain -/

theorem tryTranslators_all_fail (lem : String) :
    ∀ L : List (String × (String → Except String String)),
      (∀ p ∈ L, failsOrBlank p.2 lem) →
      tryTranslators lem L = ("", L.map Prod.fst) := by
  intro L
  induction L with
  | nil => intro _; rfl
  | cons p rest ih =>
    intro h
    obtain ⟨name, tr⟩ := p
    have hrest := ih (fun q hq => h q (List.mem_cons_of_mem _ hq))
    rcases h _ (List.mem_cons_self _ _) with ⟨e, he⟩ | ⟨t, ht, hblank⟩
    · have he2 : tr lem = Except.error e := he
      simp [tryTranslators, he2, hrest]
    · have ht2 : tr lem = Except.ok t := ht
      have hcond : ¬ (t ≠ "" ∧ pyStrip t ≠ "") := by
        rcases hblank with h1 | h2
        · exact fun hc => hc.1 h1
        · exact fun hc => hc.2 h2
      simp [tryTranslators, ht2, hcond, hrest]

theorem tryTranslators_first_success (lem : String)
    (pre : List (String × (String → Except String String)))
    (name : String) (tr : String → Except String String)
    (post : List (String × (String → Except String String))) (t : String)
    (hpre : ∀ p ∈ pre, failsOrBlank p.2 lem)
    (ht : tr lem = .ok t) (hne : t ≠ "") (hnb : pyStrip t ≠ "") :
    tryTranslators lem (pre ++ (name, tr) :: post) =
      (pyCapitalize t, pre.map Prod.fst ++ [name]) := by
  induction pre with
  | nil => simp [tryTranslators, ht, hne, hnb]
  | cons p rest ih =>
    obtain ⟨n0, tr0⟩ := p
    have hrest := ih (fun q hq => hpre q (List.mem_cons_of_mem _ hq))
    rcases hpre _ (List.mem_cons_self _ _) with ⟨e, he⟩ | ⟨t0, ht0, hblank⟩
    · have he2 : tr0 lem = Except.error e := he
      simp [tryTranslators, he2, hrest]
    · have ht02 : tr0 lem = Except.ok t0 := ht0
      have hcond : ¬ (t0 ≠ "" ∧ pyStrip t0 ≠ "") := by
        rcases hblank with h1 | h2
        · exact fun hc => hc.1 h1
        · exact fun hc => hc.2 h2
      simp [tryTranslators, ht02, hcond, hrest]

/-! ## Claim C1 -/

/-- C1: for every constructed aggregator, a fault raised by the underlying
source dictionary inside `get_POS`, `get_url`, `get_article`, `get_plural`,
`get_examples` or `get_synonyms` is caught and converted to an empty default
(empty string or empty list) and never propagates to the caller (those six
getters always return `ok`), whereas a fault inside `get_lemma` or
`get_definition` propagates, re-raised with word and language context. -/
theorem spec_C1_fault_isolation (m : DictionariesManager) :
    (∃ v, m.get_POS = .ok v) ∧ (∃ v, m.get_url = .ok v) ∧
    (∃ v, m.get_article = .ok v) ∧ (∃ v, m.get_plural = .ok v) ∧
    (∃ v, m.get_examples = .ok v) ∧ (∃ v, m.get_synonyms = .ok v) ∧
    (∀ e, m.dict.get_POS = .error e → m.get_POS = .ok "") ∧
    (∀ e, m.dict.get_url = .error e → m.get_url = .ok "") ∧
    (∀ e, m.dict.get_article = .error e → m.get_article = .ok "") ∧
    (∀ e, m.dict.get_plural? = some (.error e) → m.get_plural = .ok "") ∧
    (∀ e, m.dict.get_examples = .error e → m.get_examples = .ok (.list [])) ∧
    (∀ e, m.dict.get_synonyms = .error e → m.get_synonyms = .ok []) ∧
    (∀ e, m.dict.get_lemma = .error e → m.get_lemma = .error (lemmaErrMsg m e)) ∧
    (∀ e, m.dict.get_definition = .error e →
      m.get_definition = .error (definitionErrMsg m e)) := by
  refine ⟨?_, ?_, ?_, ?_, ?_, ?_, ?_, ?_, ?_, ?_, ?_, ?_, ?_, ?_⟩
  · rcases h : m.dict.get_POS <;> simp [DictionariesManager.get_POS, h]
  · rcases h : m.dict.get_url <;> simp [DictionariesManager.get_url, h]
  · rcases h : m.dict.get_article <;> simp [DictionariesManager.get_article, h]
  · rcases h : m.dict.get_plural? with _ | r
    · simp [DictionariesManager.get_plural, h]
    · rcases r <;> simp [DictionariesManager.get_plural, h]
  · rcases h : m.dict.get_examples with e | v
    · simp [DictionariesManager.get_examples, h]
    · rcases v <;> simp [DictionariesManager.get_examples, h]
  · rcases h : m.dict.get_synonyms <;> simp [DictionariesManager.get_synonyms, h]
  · intro e h; simp [DictionariesManager.get_POS, h]
  · intro e h; simp [DictionariesManager.get_url, h]
  · intro e h; simp [DictionariesManager.get_article, h]
  · intro e h; simp [DictionariesManager.get_plural, h]
  · intro e h; simp [DictionariesManager.get_examples, h]
  · intro e h; simp [DictionariesManager.get_synonyms, h]
  · intro e h; simp [DictionariesManager.get_lemma, h]
  · intro e h; simp [DictionariesManager.get_definition, h]

/-- Witness for C1: over the all-failing source dictionary the six optional
getters return their empty defaults and the two mandatory getters re-raise
with the word `haus` and the language `de` in the message. -/
theorem spec_C1_fault_isolation_witness :
    mC1.get_POS = .ok "" ∧ mC1.get_url = .ok "" ∧ mC1.get_article = .ok "" ∧
    mC1.get_plural = .ok "" ∧ mC1.get_examples = .ok (.list []) ∧
    mC1.get_synonyms = .ok [] ∧
    mC1.get_lemma = .error "Error getting lemma for 'haus' in de: boom" ∧
    mC1.get_definition =
      .error "Error getting definitions for 'haus' in de: boom" := by
  obtain ⟨-, -, -, -, -, -, hPOS, hurl, hart, hplu, hexs, hsyn, hlem, hdfn⟩ :=
    spec_C1_fault_isolation mC1
  exact ⟨hPOS "boom" rfl, hurl "boom" rfl, hart "boom" rfl, hplu "boom" rfl,
    hexs "boom" rfl, hsyn "boom" rfl,
    (hlem "boom" rfl).trans (congrArg Except.error (by decide)),
    (hdfn "boom" rfl).trans (congrArg Except.error (by decide))⟩

/-! ## Claim C2 -/

/-- C2 counterexample: over `mC2` the composed mapping is missing both
mandatory fields — `def1` (no definitions) and `lemma` (blank) — yet
`addNotes` raises a `MissingMandatoryFieldError` naming only `def1`, not
exactly the set of missing mandatory fields. -/
theorem spec_C2_counterexample :
    (prepareFields mC2).map
        (fun fl => (fieldIsMissing fl (.defN 1), fieldIsMissing fl .lemma_)) =
      .ok (true, true) ∧
    addNotesValidated mC2 = .ok (.error ⟨[.defN 1], "zzz"⟩) := by
  constructor
  · rfl
  · rfl

/-- C2 (amended): `addNotes` rejects the composition iff `def1` or `lemma`
is missing or whitespace-blank; when `def1` is missing the structured error
names exactly `["def1"]` and carries the word (even when `lemma` is also
missing); only otherwise, when `lemma` is missing, the error names exactly
`["lemma"]` and carries the word. -/
theorem spec_C2_mandatory_gate (fields : List (FieldKey × String)) (word : String) :
    (addNotesCheck fields word = .ok () ↔
      fieldIsMissing fields (.defN 1) = false ∧
        fieldIsMissing fields .lemma_ = false) ∧
    (fieldIsMissing fields (.defN 1) = true →
      addNotesCheck fields word = .error ⟨[.defN 1], word⟩) ∧
    (fieldIsMissing fields (.defN 1) = false →
      fieldIsMissing fields .lemma_ = true →
      addNotesCheck fields word = .error ⟨[.lemma_], word⟩) := by
  unfold addNotesCheck
  by_cases h1 : fieldIsMissing fields (.defN 1) <;>
    by_cases h2 : fieldIsMissing fields .lemma_ <;>
      simp [h1, h2, List.filter]

/-- Witness for the amended C2: a mapping with blank `def1` is rejected
naming `def1`; one with good `def1` and blank `lemma` is rejected naming
`lemma`; one with both fields populated passes. -/
theorem spec_C2_mandatory_gate_witness :
    addNotesCheck [(.lemma_, "haus"), (.defN 1, "")] "w" =
      .error ⟨[.defN 1], "w"⟩ ∧
    addNotesCheck [(.lemma_, " "), (.defN 1, "d")] "w" =
      .error ⟨[.lemma_], "w"⟩ ∧
    addNotesCheck [(.lemma_, "haus"), (.defN 1, "d")] "w" = .ok () :=
  ⟨(spec_C2_mandatory_gate _ "w").2.1 (by decide),
   (spec_C2_mandatory_gate _ "w").2.2 (by decide) (by decide),
   ((spec_C2_mandatory_gate _ "w").1).mpr (by decide)⟩

/-! ## Claim C3 -/

/-- C3 counterexample: for a WordEntry with definitions `["d1","d2"]` and
examples `["e1"]` the composed mapping has `def1="d1"`, `def2="d2"`,
`ex1="e1"` — but no `ex2` key at all (`none`), rather than a present-and-empty
trailing example slot. -/
theorem spec_C3_counterexample :
    (prepareFields mC3).map (fun fl =>
      (lookupK fl (.defN 1), lookupK fl (.defN 2),
       lookupK fl (.exN 1), lookupK fl (.exN 2))) =
      .ok (some "d1", some "d2", some "e1", none) := by
  rfl

/-- C3 (amended): whenever composition succeeds, the mapping contains all
eight base schema fields with string values (`None` and faults coerced to
empty string inside those values), while the numbered `def{i}` / `ex{i}`
slots are present exactly for the available items (capped at 15): the lookup
of slot `i` equals the `i`-th item when it exists and the key is absent
(`none`) beyond the item count — trailing slots are not filled with empties. -/
theorem spec_C3_field_mapping (m : DictionariesManager)
    (fl : List (FieldKey × String)) (h : prepareFields m = .ok fl) :
    (∃ v, lookupK fl .url = some v) ∧ (∃ v, lookupK fl .lemma_ = some v) ∧
    (∃ v, lookupK fl .ipa = some v) ∧ (∃ v, lookupK fl .pos = some v) ∧
    (∃ v, lookupK fl .article = some v) ∧ (∃ v, lookupK fl .plural = some v) ∧
    (∃ v, lookupK fl .translated_lemma = some v) ∧
    (∃ v, lookupK fl .synonyms = some v) ∧
    (∀ dv, m.get_definition = .ok dv → ∀ j,
      lookupK fl (.defN j) =
        if 1 ≤ j then ((pyOrEmptyItems dv).take 15)[j - 1]? else none) ∧
    (∀ ev, m.get_examples = .ok ev → ∀ j,
      lookupK fl (.exN j) =
        if 1 ≤ j then ((pyOrEmptyItems ev).take 15)[j - 1]? else none) := by
  obtain ⟨lv, dv, ev, hl, hd, he, hfl⟩ := prepareFields_ok_inv m fl h
  subst hfl
  obtain ⟨b1, b2, b3, b4, b5, b6, b7, b8⟩ := lookupK_prepared_base m lv dv ev
  refine ⟨⟨_, b1⟩, ⟨_, b2⟩, ⟨_, b3⟩, ⟨_, b4⟩, ⟨_, b5⟩, ⟨_, b6⟩, ⟨_, b7⟩,
    ⟨_, b8⟩, ?_, ?_⟩
  · intro dv2 hd2 j
    rw [hd] at hd2
    cases hd2
    exact lookupK_prepared_defN m lv dv ev j
  · intro ev2 he2 j
    rw [he] at he2
    cases he2
    exact lookupK_prepared_exN m lv dv ev j

/-- Witness for the amended C3: over `mC3` the base `url` field is present,
`ex1` holds the single example and `ex2` is absent. -/
theorem spec_C3_field_mapping_witness :
    (∃ v, lookupK (prepared mC3 "w3" (.list ["d1", "d2"]) (.list ["e1"]))
      .url = some v) ∧
    lookupK (prepared mC3 "w3" (.list ["d1", "d2"]) (.list ["e1"]))
      (.exN 1) = some "e1" ∧
    lookupK (prepared mC3 "w3" (.list ["d1", "d2"]) (.list ["e1"]))
      (.exN 2) = none := by
  have h := spec_C3_field_mapping mC3 _ (by rfl)
  refine ⟨h.1, ?_, ?_⟩
  · exact (h.2.2.2.2.2.2.2.2.2 (.list ["e1"]) rfl 1).trans (by decide)
  · exact (h.2.2.2.2.2.2.2.2.2 (.list ["e1"]) rfl 2).trans (by decide)

/-! ## Claim C4 -/

/-- C4: the translator chain is the fixed ordered list Google, MyMemory,
Linguee, Pons; with no translation language configured the chain is skipped
(no back-end invoked) and `""` returned; otherwise, when every back-end
raises or returns a blank string the result is `""` (after consulting all
four), and when some back-end is the first to return a non-empty,
non-whitespace string the result is that string capitalized, the earlier
back-ends' faults or empty results being invisible in the result. -/
theorem spec_C4_translation_chain (m : DictionariesManager) :
    (pyFalsyOpt m.translation_language = true →
      m.get_translation = .ok ("", [])) ∧
    (translatorsOf m = [("GoogleTranslator", m.google),
      ("MyMemoryTranslator", m.mymemory), ("LingueeTranslator", m.linguee),
      ("PonsTranslator", m.pons)]) ∧
    (∀ lem, pyFalsyOpt m.translation_language = false → m.get_lemma = .ok lem →
      ((∀ p ∈ translatorsOf m, failsOrBlank p.2 lem) →
        m.get_translation = .ok ("", ["GoogleTranslator", "MyMemoryTranslator",
          "LingueeTranslator", "PonsTranslator"])) ∧
      (∀ pre nt post t, translatorsOf m = pre ++ nt :: post →
        (∀ p ∈ pre, failsOrBlank p.2 lem) → nt.2 lem = .ok t →
        t ≠ "" → pyStrip t ≠ "" →
        m.get_translation = .ok (pyCapitalize t, pre.map Prod.fst ++ [nt.1]))) := by
  refine ⟨?_, rfl, ?_⟩
  · intro h
    simp [DictionariesManager.get_translation, h]
  · intro lem hlang hlem
    constructor
    · intro hall
      have hrun := tryTranslators_all_fail lem (translatorsOf m) hall
      simp only [translatorsOf, List.map] at hrun
      simp [DictionariesManager.get_translation, hlang, hlem, hrun, translatorsOf]
    · intro pre nt post t hsplit hpre ht hne hnb
      obtain ⟨name, tr⟩ := nt
      have hrun := tryTranslators_first_success lem pre name tr post t hpre ht hne hnb
      rw [← hsplit] at hrun
      simp [DictionariesManager.get_translation, hlang, hlem, hrun]

/-- Witness for C4 at the spec's fallback scenario: Google raises, MyMemory
returns empty, Linguee returns `"haus"`; the result is `"Haus"` and Pons is
never consulted. -/
theorem spec_C4_translation_chain_witness :
    mC4.get_translation = .ok ("Haus",
      ["GoogleTranslator", "MyMemoryTranslator", "LingueeTranslator"]) := by
  have h := (spec_C4_translation_chain mC4).2.2 "haus" rfl rfl
  have h2 := h.2 [("GoogleTranslator", mC4.google),
      ("MyMemoryTranslator", mC4.mymemory)]
    ("LingueeTranslator", mC4.linguee) [("PonsTranslator", mC4.pons)] "haus"
    rfl
    (by
      intro p hp
      have hp2 : p = ("GoogleTranslator", mC4.google) ∨
          p = ("MyMemoryTranslator", mC4.mymemory) := by simpa using hp
      rcases hp2 with rfl | rfl
      · exact Or.inl ⟨"rate limited", rfl⟩
      · exact Or.inr ⟨"", rfl, Or.inl rfl⟩)
    rfl (by decide) (by decide)
  exact h2.trans (by rfl)

/-! ## Claim C5 -/

/-- C5 counterexample: the input `"the cat"` contains internal whitespace,
yet lemma resolution does not fail with the phrase error — the leading
article is silently removed and lemmatization proceeds (here with the
identity lemmatizer, and the network existence check does run). Moreover, in
the tagger-backed path, a two-unit tag list yields a lemma with an embedded
space on a successfully constructed source dictionary. -/
theorem spec_C5_counterexample :
    pyContainsChar ' ' "the cat" = true ∧
    wordLemmatize id (.ok ()) true "the cat" = .ok "cat" ∧
    treeTaggerLemma [some ⟨"NN", "Haupt"⟩, some ⟨"NN", "Bahnhof"⟩] =
      "Haupt Bahnhof" ∧
    (mkGermanSourceDict
        (treeTaggerLemma [some ⟨"NN", "Haupt"⟩, some ⟨"NN", "Bahnhof"⟩])
        "Noun" none).get_lemma = .ok "Haupt Bahnhof" ∧
    pyContainsChar ' ' "Haupt Bahnhof" = true := by
  exact ⟨rfl, rfl, rfl, rfl, rfl⟩

/-- C5 (amended): the phrase check runs after case/whitespace normalization
and leading-article removal, so whenever the normalized, article-stripped
word still contains a space, `lemmatize` fails with the phrase-not-allowed
error, and the outcome is independent of the lemmatizer and of the network
existence check (neither is consulted). In the tagger-backed path the lemma
is the space-join of the per-unit lemmas, hence contains an embedded space
whenever the engine yields two or more units. -/
theorem spec_C5_phrase_gate (f g : String → String)
    (conn conn2 : Except String Unit) (ce ce2 : Bool) (w0 : String)
    (h : pyContainsChar ' ' (stripLeadingArticle (wordNormalize w0)) = true) :
    wordLemmatize f conn ce w0 =
      .error "Only one word is allowed, not a phrase." ∧
    wordLemmatize f conn ce w0 = wordLemmatize g conn2 ce2 w0 ∧
    (∀ t1 t2 : TTag, ∀ rest : List (Option TTag),
      ' ' ∈ (treeTaggerLemma (some t1 :: some t2 :: rest)).data) := by
  refine ⟨by simp [wordLemmatize, h], by simp [wordLemmatize, h], ?_⟩
  intro t1 t2 rest
  simp [treeTaggerLemma, pyJoin, List.intercalate, List.intersperse]

/-- Witness for the amended C5: `"the black cat"` still contains a space
after the article strip, so it is rejected; and a concrete two-tag list has
a space in its joined lemma. -/
theorem spec_C5_phrase_gate_witness :
    wordLemmatize id (.ok ()) true "the black cat" =
      .error "Only one word is allowed, not a phrase." ∧
    ' ' ∈ (treeTaggerLemma [some ⟨"NN", "a"⟩, some ⟨"NN", "b"⟩]).data := by
  have h := spec_C5_phrase_gate id id (.ok ()) (.ok ()) true true
    "the black cat" (by decide)
  exact ⟨h.1, h.2.2 ⟨"NN", "a"⟩ ⟨"NN", "b"⟩ []⟩

/-! ## Claim C6 -/

/-- C6: when the source yields a definition list of length at least 15 and
the cap is the default 15, the aggregator's `get_definition` returns exactly
the first 15 definitions, and the composed mapping has populated `def{i}`
slots exactly for `i = 1..15` — the excess is dropped. -/
theorem spec_C6_definition_cap (m : DictionariesManager) (ds : List String)
    (hd : m.dict.get_definition = .ok (.list ds)) (hmax : m.max_items = 15)
    (hlen : 15 ≤ ds.length) :
    m.get_definition = .ok (.list (ds.take 15)) ∧
    (ds.take 15).length = 15 ∧
    (∀ fl, prepareFields m = .ok fl →
      (∀ j, 1 ≤ j → j ≤ 15 → ∃ v, lookupK fl (.defN j) = some v) ∧
      (∀ j, 15 < j → lookupK fl (.defN j) = none)) := by
  have hget : m.get_definition = .ok (.list (ds.take 15)) := by
    simp [DictionariesManager.get_definition, hd, hmax]
  refine ⟨hget, by simp [List.length_take]; omega, ?_⟩
  intro fl hfl
  obtain ⟨lv, dv, ev, hl, hd2, he, hflq⟩ := prepareFields_ok_inv m fl hfl
  subst hflq
  rw [hget] at hd2
  cases hd2
  constructor
  · intro j h1 h15
    rw [lookupK_prepared_defN, if_pos h1]
    have hlt : j - 1 < ((pyOrEmptyItems (.list (ds.take 15))).take 15).length := by
      simp [pyOrEmptyItems, List.length_take]
      omega
    exact ⟨_, List.getElem?_eq_getElem hlt⟩
  · intro j h15
    rw [lookupK_prepared_defN, if_pos (by omega)]
    apply List.getElem?_eq_none
    simp [pyOrEmptyItems, List.length_take]
    omega

/-- Witness for C6: a source with 30 identical definitions yields exactly 15,
slot `def15` is populated and slot `def16` is absent. -/
theorem spec_C6_definition_cap_witness :
    mC6.get_definition = .ok (.list (List.replicate 15 "d")) ∧
    prepareFields mC6 =
      .ok (prepared mC6 "many" (.list (List.replicate 30 "d")) (.list [])) ∧
    (∃ v, lookupK (prepared mC6 "many" (.list (List.replicate 30 "d"))
      (.list [])) (.defN 15) = some v) ∧
    lookupK (prepared mC6 "many" (.list (List.replicate 30 "d")) (.list []))
      (.defN 16) = none := by
  have h := spec_C6_definition_cap mC6 (List.replicate 30 "d") rfl rfl (by decide)
  have h2 := h.2.2 (prepared mC6 "many" (.list (List.replicate 30 "d"))
    (.list [])) (by rfl)
  exact ⟨h.1.trans (by rfl), by rfl,
    h2.1 15 (by decide) (by decide), h2.2 16 (by decide)⟩

/-! ## Claim C7 -/

/-- C7 counterexample: over a source dictionary whose `get_lemma` raises,
`get_IPA` raises too — the lemma resolution at the top of `get_IPA` runs
outside any `try`, so not every fault inside `get_IPA` degrades to the empty
string. -/
theorem spec_C7_counterexample :
    mC7.get_IPA = .error "Error getting lemma for 'haus' in de: tagger crashed" := by
  rfl

/-- C7 (amended): `get_IPA` first resolves the lemma via `get_lemma`, whose
fault propagates (re-raised with word and language context); once the lemma
resolves, `get_IPA` never raises: it returns the source dictionary's IPA
when non-blank; when the source IPA is `None`, blank or faulting and the
language is German and epitran is available, it returns the engine's
transliteration of the lemma (blank or faulting transliterations degrade to
`""`); without the German/epitran fallback a blank source IPA yields `""`. -/
theorem spec_C7_ipa_fallback (m : DictionariesManager) :
    (∀ e, m.dict.get_lemma = .error e → m.get_IPA = .error (lemmaErrMsg m e)) ∧
    (∀ lem, m.dict.get_lemma = .ok lem → ∃ v, m.get_IPA = .ok v) ∧
    (∀ lem s, m.dict.get_lemma = .ok lem → m.dict.get_IPA = .ok (some s) →
      pyStrip s ≠ "" → m.get_IPA = .ok s) ∧
    (∀ lem, m.dict.get_lemma = .ok lem →
      (m.dict.get_IPA = .ok none ∨
        (∃ s, m.dict.get_IPA = .ok (some s) ∧ pyStrip s = "") ∨
        (∃ e, m.dict.get_IPA = .error e)) →
      m.lang = "de" → m.epitranAvailable = true →
      ((∀ t, m.epitran lem = .ok t → t ≠ "" → pyStrip t ≠ "" →
          m.get_IPA = .ok t) ∧
       (∀ e, m.epitran lem = .error e → m.get_IPA = .ok ""))) ∧
    (∀ lem, m.dict.get_lemma = .ok lem →
      (m.dict.get_IPA = .ok none ∨
        (∃ s, m.dict.get_IPA = .ok (some s) ∧ pyStrip s = "") ∨
        (∃ e, m.dict.get_IPA = .error e)) →
      ¬(m.lang = "de" ∧ m.epitranAvailable = true) → m.get_IPA = .ok "") := by
  refine ⟨?_, ?_, ?_, ?_, ?_⟩
  · intro e hl
    have h2 : m.get_lemma = .error (lemmaErrMsg m e) := by
      simp [DictionariesManager.get_lemma, hl]
    simp [DictionariesManager.get_IPA, h2]
  · intro lem hl
    have h2 : m.get_lemma = .ok lem := by
      simp [DictionariesManager.get_lemma, hl]
    simp only [DictionariesManager.get_IPA, h2]
    exact ⟨_, rfl⟩
  · intro lem s hl hipa hs
    have h2 : m.get_lemma = .ok lem := by
      simp [DictionariesManager.get_lemma, hl]
    have hs0 : s ≠ "" := by
      intro hq
      subst hq
      exact hs rfl
    simp [DictionariesManager.get_IPA, h2, hipa, hs, hs0]
  · intro lem hl hblank hde hav
    have h2 : m.get_lemma = .ok lem := by
      simp [DictionariesManager.get_lemma, hl]
    constructor
    · intro t het htne htnb
      rcases hblank with hb | ⟨s, hb, hbs⟩ | ⟨e, hb⟩
      · simp [DictionariesManager.get_IPA, h2, hb, hde, hav, het, htne, htnb]
      · simp [DictionariesManager.get_IPA, h2, hb, hbs, hde, hav, het, htne, htnb]
      · simp [DictionariesManager.get_IPA, h2, hb, hde, hav, het, htne, htnb]
    · intro e het
      rcases hblank with hb | ⟨s, hb, hbs⟩ | ⟨e2, hb⟩
      · simp [DictionariesManager.get_IPA, h2, hb, hde, hav, het]
      · simp [DictionariesManager.get_IPA, h2, hb, hbs, hde, hav, het]
      · simp [DictionariesManager.get_IPA, h2, hb, hde, hav, het]
  · intro lem hl hblank hnot
    have h2 : m.get_lemma = .ok lem := by
      simp [DictionariesManager.get_lemma, hl]
    rcases hblank with hb | ⟨s, hb, hbs⟩ | ⟨e2, hb⟩
    · simp [DictionariesManager.get_IPA, h2, hb, hnot]
    · simp [DictionariesManager.get_IPA, h2, hb, hbs, hnot]
    · simp [DictionariesManager.get_IPA, h2, hb, hnot]

/-- Witness for the amended C7: a German aggregator with a whitespace-only
source IPA and an available epitran engine returns the transliteration. -/
theorem spec_C7_ipa_fallback_witness :
    mC7w.get_IPA = .ok "haus-ipa" ∧ (∃ v, mC7w.get_IPA = .ok v) := by
  have h := spec_C7_ipa_fallback mC7w
  have h4 := h.2.2.2.1 "Haus" rfl (Or.inr (Or.inl ⟨" ", rfl, by decide⟩)) rfl rfl
  exact ⟨h4.1 "haus-ipa" rfl (by decide) (by decide), h.2.1 "Haus" rfl⟩

/-! ## Claim C8 -/

/-- C8: on a scrape-backed lookup whose meaning overview is a non-empty list
in which every element is a string of length at most 2, `get_definition`
joins all elements, cleans the result and returns it as a single-element
list; in every other non-empty case the list is flattened one level and each
definition cleaned individually. -/
theorem spec_C8_scrape_repair (d : DudenEntry) (hne : d.meaning_overview ≠ []) :
    (d.meaning_overview.all (fun e =>
        match e with
        | .str s => decide (s.data.length ≤ 2)
        | .lst _ => false) = true →
      germanGetDefinition (some d) =
        [cleanText (pyJoin "" (d.meaning_overview.map (fun e =>
          match e with
          | .str s => s
          | .lst _ => "")))]) ∧
    (d.meaning_overview.all (fun e =>
        match e with
        | .str s => decide (s.data.length ≤ 2)
        | .lst _ => false) = false →
      germanGetDefinition (some d) =
        (d.meaning_overview.flatMap (fun e =>
          match e with
          | .str s => [s]
          | .lst l => l)).map cleanText) := by
  constructor
  · intro h
    simp only [germanGetDefinition]
    rw [if_neg hne, if_pos h]
  · intro h
    simp only [germanGetDefinition]
    rw [if_neg hne, if_neg (by rw [h]; exact Bool.false_ne_true)]

/-- Witness for C8: the meaning overview `["H","a","u","s"]` is repaired to
the single cleaned definition `"Haus"`. -/
theorem spec_C8_scrape_repair_witness :
    germanGetDefinition (some d8) = ["Haus"] := by
  exact ((spec_C8_scrape_repair d8 (by decide)).1 (by decide)).trans (by rfl)

/-! ## Claim C9 -/

/-- C9 counterexample: the grammar overview `"die Frau, Plural:"` contains
the literal `"Plural:"` marker but the marker heuristic's token is empty, so
per the claim the result should be the empty string (the comma heuristic
applying only when the marker is absent) — yet the code falls through to the
comma heuristic and returns `"Plural"`. -/
theorem spec_C9_counterexample :
    pyInStr "Plural:" d9.grammar_overview = true ∧
    pluralMarkerToken d9.grammar_overview = "" ∧
    germanGetPlural (some d9) = "Plural" := by
  exact ⟨rfl, rfl, rfl⟩

/-- C9 (amended): the aggregator's plural getter returns `""` when the
source variant lacks a `get_plural` capability (as the REST/English variant
does); the scrape-backed extraction takes, when the `"Plural:"` marker is
present and yields a non-empty trailing token (stripped of `.,;:` on both
ends), that token; when the marker is absent — or present but yielding an
empty token — it falls back to the trailing token after the last comma,
stripped the same way; with neither heuristic applicable the result is `""`,
and the getter never raises. -/
theorem spec_C9_plural_heuristics (m : DictionariesManager) (d : DudenEntry) :
    (m.dict.get_plural? = none → m.get_plural = .ok "") ∧
    (∀ lem pos data, (mkEnglishSourceDict lem pos data).get_plural? = none) ∧
    (d.grammar_overview ≠ "" → pyInStr "Plural:" d.grammar_overview = true →
      pluralMarkerToken d.grammar_overview ≠ "" →
      germanGetPlural (some d) = pluralMarkerToken d.grammar_overview) ∧
    (d.grammar_overview ≠ "" → pyInStr "Plural:" d.grammar_overview = false →
      pyContainsChar ',' d.grammar_overview = true →
      germanGetPlural (some d) = pluralCommaToken d.grammar_overview) ∧
    (d.grammar_overview ≠ "" → pyInStr "Plural:" d.grammar_overview = true →
      pluralMarkerToken d.grammar_overview = "" →
      pyContainsChar ',' d.grammar_overview = true →
      germanGetPlural (some d) = pluralCommaToken d.grammar_overview) ∧
    (d.grammar_overview ≠ "" → pyInStr "Plural:" d.grammar_overview = false →
      pyContainsChar ',' d.grammar_overview = false →
      germanGetPlural (some d) = "") ∧
    germanGetPlural none = "" := by
  refine ⟨?_, fun lem pos data => rfl, ?_, ?_, ?_, ?_, rfl⟩
  · intro h
    simp [DictionariesManager.get_plural, h]
  · intro hne hmark htok
    simp [germanGetPlural, hne, hmark, htok]
  · intro hne hmark hcomma
    by_cases hc : pluralCommaToken d.grammar_overview = "" <;>
      simp [germanGetPlural, hne, hmark, hcomma, hc]
  · intro hne hmark htok hcomma
    by_cases hc : pluralCommaToken d.grammar_overview = "" <;>
      simp [germanGetPlural, hne, hmark, htok, hcomma, hc]
  · intro hne hmark hcomma
    simp [germanGetPlural, hne, hmark, hcomma]

/-- Witness for the amended C9: the English aggregator has no plural
capability and yields `""`; a marker-style grammar overview yields
`"Frauen"`; a comma-style one yields `"Häuser"`. -/
theorem spec_C9_plural_heuristics_witness :
    mC9.get_plural = .ok "" ∧
    germanGetPlural (some d9b) = "Frauen" ∧
    germanGetPlural (some d9a) = "Häuser" := by
  have h1 := (spec_C9_plural_heuristics mC9 d9b).1 rfl
  have h2 := (spec_C9_plural_heuristics mC9 d9b).2.2.1 (by decide) (by decide)
    (by decide)
  have h3 := (spec_C9_plural_heuristics mC9 d9a).2.2.2.1 (by decide) (by decide)
    (by decide)
  exact ⟨h1, h2.trans (by rfl), h3.trans (by rfl)⟩

/-! ## Claim C10 -/

/-- C10: for every German-language lookup, the source dictionary's
`get_examples` returns the empty string (not a list of sentences), the
aggregator's `get_examples` passes that value through unchanged (its
truncation applies only to lists), and the composed mapping contains no
`ex{i}` field for any `i`. -/
theorem spec_C10_german_examples (lem pos : String) (dud : Option DudenEntry)
    (m : DictionariesManager) (hm : m.dict = mkGermanSourceDict lem pos dud) :
    germanGetExamples = .str "" ∧
    m.get_examples = .ok (.str "") ∧
    (∀ fl, prepareFields m = .ok fl → ∀ j, lookupK fl (.exN j) = none) := by
  have hex : m.dict.get_examples = .ok (.str "") := by rw [hm]; rfl
  have hdm : m.get_examples = .ok (.str "") := by
    simp [DictionariesManager.get_examples, hex]
  refine ⟨rfl, hdm, ?_⟩
  intro fl hfl j
  obtain ⟨lv, dv, ev, hl, hd, he, hflq⟩ := prepareFields_ok_inv m fl hfl
  subst hflq
  rw [hdm] at he
  cases he
  rw [lookupK_prepared_exN]
  simp [pyOrEmptyItems]

/-- Witness for C10: over a fully populated Duden entry the aggregator's
examples are the empty string and the `ex1` slot is absent from the
composed mapping. -/
theorem spec_C10_german_examples_witness :
    mC10.get_examples = .ok (.str "") ∧
    lookupK (prepared mC10 "Haus" (.list (germanGetDefinition (some d10)))
      (.str "")) (.exN 1) = none := by
  have h := spec_C10_german_examples "Haus" "Noun" (some d10) mC10 rfl
  exact ⟨h.2.1, h.2.2 _ (by rfl) 1⟩
